import Mathlib

/-!
# Verification of `markus.testing.MetricsMock`

A shallow embedding of `src/markus/testing.py`: the `MetricsMock` recorder,
its four emission methods (`incr`, `gauge`, `timing`, `histogram`), the scope
protocol (`__enter__` / `__exit__` via `_override_metrics`), and the query
operations (`get_records`, `filter_records`, `has_record`, `clear_records`).

Python state is passed explicitly: every method takes the receiver state and
returns the updated state.  Fallible code (Python code that can raise) is
embedded as `Except PyError`; code that cannot raise keeps a plain return type.
-/

/-- Modelled from the spec: the metric-kind constants `INCR`, `GAUGE`, `TIMING`,
`HISTOGRAM` are imported by `testing.py` from the `markus` package, whose source
is not under `src/`.  The spec describes the kind as a closed "enumeration over
{INCREMENT, GAUGE, TIMING, HISTOGRAM} (the four supported metric operations)",
so we embed the four constants as a four-element inductive type. -/
inductive FunName where
  | INCR
  | GAUGE
  | TIMING
  | HISTOGRAM
deriving DecidableEq

/-- Python values stored in records.  The code stores whatever value it is
handed, unvalidated, and compares values with Python `==` (equality between an
int and a string is `False`, without error); we embed the value shapes the spec
mentions: numbers, and — since non-numeric values are "simply stored as-is" —
strings and Python `None`. -/
inductive Value where
  | int (n : Int)
  | str (s : String)
  | pynone
deriving DecidableEq

/-- One collected record: the tuple `(fun_name, stat, value, tags)` appended by
`MetricsMock._add_record`.  `tags` is `Option` because the emission methods
default to `tags=None` and store that `None` as-is. -/
structure Record where
  fun_name : FunName
  stat : String
  value : Value
  tags : Option (List String)
deriving DecidableEq

/-- The mutable state of a `MetricsMock` instance: `self.records`, the list
created empty in `__init__`. -/
structure MetricsMock where
  records : List Record
deriving DecidableEq

/-- `MetricsMock.__init__`: `self.records = []`. -/
def MetricsMock.init : MetricsMock := ⟨[]⟩

/-- `MetricsMock._add_record`: `self.records.append((fun_name, stat, value, tags))`. -/
def MetricsMock._add_record (m : MetricsMock) (fun_name : FunName) (stat : String)
    (value : Value) (tags : Option (List String)) : MetricsMock :=
  ⟨m.records ++ [⟨fun_name, stat, value, tags⟩]⟩

/-- `MetricsMock.incr(stat, value=1, tags=None)` with every argument supplied. -/
def MetricsMock.incr (m : MetricsMock) (stat : String) (value : Value)
    (tags : Option (List String)) : MetricsMock :=
  m._add_record .INCR stat value tags

/-- `MetricsMock.incr` called without an explicit `value`: Python supplies the
declared default `value=1`. -/
def MetricsMock.incrDefault (m : MetricsMock) (stat : String)
    (tags : Option (List String)) : MetricsMock :=
  m.incr stat (.int 1) tags

/-- `MetricsMock.gauge(stat, value, tags=None)`. -/
def MetricsMock.gauge (m : MetricsMock) (stat : String) (value : Value)
    (tags : Option (List String)) : MetricsMock :=
  m._add_record .GAUGE stat value tags

/-- `MetricsMock.timing(stat, value, tags=None)`. -/
def MetricsMock.timing (m : MetricsMock) (stat : String) (value : Value)
    (tags : Option (List String)) : MetricsMock :=
  m._add_record .TIMING stat value tags

/-- `MetricsMock.histogram(stat, value, tags=None)`. -/
def MetricsMock.histogram (m : MetricsMock) (stat : String) (value : Value)
    (tags : Option (List String)) : MetricsMock :=
  m._add_record .HISTOGRAM stat value tags

/-- `MetricsMock.get_records`: `return self.records`. -/
def MetricsMock.get_records (m : MetricsMock) : List Record :=
  m.records

/-- `MetricsMock.clear_records`: `self.records = []`.  The method reads nothing
from the old state. -/
def MetricsMock.clear_records (_m : MetricsMock) : MetricsMock :=
  ⟨[]⟩

/-- The Python exceptions the embedded code can raise.  The only raise site in
`testing.py` is `sorted(record_tags)` inside `match_tags` when `record_tags` is
`None`: `TypeError` ("NoneType object is not iterable"). -/
inductive PyError where
  | typeError
deriving DecidableEq

/-- Python string comparison on the underlying character lists: lexicographic
by Unicode code point, the order `sorted` uses on strings. -/
def strLeAux : List Char → List Char → Bool
  | [], _ => true
  | _ :: _, [] => false
  | a :: as, b :: bs =>
    if a.toNat < b.toNat then true
    else if b.toNat < a.toNat then false
    else strLeAux as bs

/-- Python `s1 <= s2` on strings. -/
def strLe (a b : String) : Bool :=
  strLeAux a.data b.data

/-- `strLe` as a decidable relation, for use with `List.insertionSort`. -/
def pyStrLeProp (a b : String) : Prop :=
  strLe a b = true

instance : DecidableRel pyStrLeProp :=
  fun a b => inferInstanceAs (Decidable (strLe a b = true))

/-- Python `sorted` on a list of strings: the `strLe`-sorted rearrangement of
the input.  Any correct sort computes it (the sorted permutation under a total
antisymmetric order is unique), so we embed it with insertion sort, which
computes by structural recursion. -/
def pySorted (l : List String) : List String :=
  List.insertionSort pyStrLeProp l

/-- The closure `match_fun_name` in `filter_records`:
`fun_name is None or fun_name == record_fun_name`. -/
def match_fun_name (fun_name : Option FunName) (record_fun_name : FunName) : Bool :=
  fun_name.isNone || fun_name == some record_fun_name

/-- The closure `match_stat` in `filter_records`:
`stat is None or stat == record_stat`. -/
def match_stat (stat : Option String) (record_stat : String) : Bool :=
  stat.isNone || stat == some record_stat

/-- The closure `match_value` in `filter_records`:
`value is None or value == record_value`. -/
def match_value (value : Option Value) (record_value : Value) : Bool :=
  value.isNone || value == some record_value

/-- The closure `match_tags` in `filter_records`:
`tags is None or list(sorted(tags)) == list(sorted(record_tags))`.
When `tags` is supplied and `record_tags` is Python `None` (the default left by
an emission called without tags), `sorted(record_tags)` raises `TypeError`. -/
def match_tags (tags : Option (List String)) (record_tags : Option (List String)) :
    Except PyError Bool :=
  match tags with
  | none => .ok true
  | some ts =>
    match record_tags with
    | none => .error .typeError
    | some rts => .ok (pySorted ts == pySorted rts)

/-- The four keyword criteria of `filter_records` / `has_record`; `none` is the
Python default `None` (wildcard). -/
structure Criteria where
  fun_name : Option FunName
  stat : Option String
  value : Option Value
  tags : Option (List String)
deriving DecidableEq

/-- The condition of the list comprehension in `filter_records`:
`match_fun_name(record[0]) and match_stat(record[1]) and match_value(record[2])
and match_tags(record[3])`.  Python `and` short-circuits left to right, and
only `match_tags` can raise. -/
def matchRecord (c : Criteria) (r : Record) : Except PyError Bool :=
  if match_fun_name c.fun_name r.fun_name then
    if match_stat c.stat r.stat then
      if match_value c.value r.value then
        match_tags c.tags r.tags
      else .ok false
    else .ok false
  else .ok false

/-- The list comprehension in `filter_records`, evaluated left to right over the
records; the first record on which `match_tags` raises aborts the whole call
with that exception. -/
def filterList (c : Criteria) : List Record → Except PyError (List Record)
  | [] => .ok []
  | r :: rs =>
    match matchRecord c r with
    | .error e => .error e
    | .ok b =>
      match filterList c rs with
      | .error e => .error e
      | .ok rest => .ok (if b then r :: rest else rest)

/-- `MetricsMock.filter_records(fun_name=None, stat=None, value=None, tags=None)`. -/
def MetricsMock.filter_records (m : MetricsMock) (c : Criteria) :
    Except PyError (List Record) :=
  filterList c m.get_records

/-- `MetricsMock.has_record`: `return bool(self.filter_records(...))`.
Python `bool` of a list is its non-emptiness; an exception raised by
`filter_records` propagates. -/
def MetricsMock.has_record (m : MetricsMock) (c : Criteria) : Except PyError Bool :=
  match m.filter_records c with
  | .ok l => .ok (!l.isEmpty)
  | .error e => .error e

/-- Modelled from the spec: the process-wide active-backend slot mutated through
`_override_metrics` (defined in `markus.main`, which is not under `src/`).  The
spec describes the collaborator as exactly one hook, "set active backend to X"
where X is either a Recorder instance or none/empty (uninstall), and the scope
lifecycle as a two-state machine {inactive, active}.  `active` is that slot
(`true` iff a backend is installed); `mock` is the `MetricsMock` instance the
scope protocol manipulates. -/
structure TestingState where
  mock : MetricsMock
  active : Bool
deriving DecidableEq

/-- Modelled from the spec: `_override_metrics(backends)` sets the active
backend slot (`some ()` stands for the list `[self]`, `none` for Python
`None`); it touches nothing but the slot. -/
def _override_metrics (s : TestingState) (backends : Option Unit) : TestingState :=
  ⟨s.mock, backends.isSome⟩

/-- `MetricsMock.__enter__`: `self.records = []` then
`_override_metrics([self])`; returns `self`. -/
def TestingState.enterScope (s : TestingState) : TestingState :=
  _override_metrics ⟨⟨[]⟩, s.active⟩ (some ())

/-- `MetricsMock.__exit__(exc_type, exc_value, traceback)`:
`_override_metrics(None)`, ignoring the exception information describing a
failure propagating out of the scope body.  The method implicitly returns
Python `None`, which is falsy, so the context-manager protocol does not
suppress the exception: the second component is that suppress flag. -/
def TestingState.exitScope (s : TestingState) (_excInfo : Option String) :
    TestingState × Bool :=
  (_override_metrics s none, false)

/-- `clear_records` invoked while the global slot state is in view: the method
body only assigns `self.records`. -/
def TestingState.clear_records (s : TestingState) : TestingState :=
  ⟨s.mock.clear_records, s.active⟩

/-- One emission call: which of the four methods was called and with which
arguments. -/
inductive Emission where
  | incr (stat : String) (value : Value) (tags : Option (List String))
  | gauge (stat : String) (value : Value) (tags : Option (List String))
  | timing (stat : String) (value : Value) (tags : Option (List String))
  | histogram (stat : String) (value : Value) (tags : Option (List String))
deriving DecidableEq

/-- Dispatch one emission call to the corresponding method. -/
def MetricsMock.emit (m : MetricsMock) : Emission → MetricsMock
  | .incr stat value tags => m.incr stat value tags
  | .gauge stat value tags => m.gauge stat value tags
  | .timing stat value tags => m.timing stat value tags
  | .histogram stat value tags => m.histogram stat value tags

/-- The record a single emission call appends. -/
def Emission.record : Emission → Record
  | .incr stat value tags => ⟨.INCR, stat, value, tags⟩
  | .gauge stat value tags => ⟨.GAUGE, stat, value, tags⟩
  | .timing stat value tags => ⟨.TIMING, stat, value, tags⟩
  | .histogram stat value tags => ⟨.HISTOGRAM, stat, value, tags⟩

/-! ## Theorems -/

/-- C6: on every scope entry the record sequence is reset to empty before the
instance is installed as the sole active backend; hence after a scope exit
followed by a fresh entry, `get_records()` immediately returns the empty
sequence, whatever records the prior scope had collected. -/
theorem C6_enter_resets_then_installs (s : TestingState) :
    s.enterScope.mock.get_records = []
  ∧ s.enterScope.active = true
  ∧ ∀ excInfo : Option String,
      ((s.exitScope excInfo).1.enterScope).mock.get_records = []
  ∧ ((s.exitScope excInfo).1.enterScope).active = true := by
  refine ⟨rfl, rfl, fun excInfo => ⟨rfl, rfl⟩⟩

/-- C7: scope exit unconditionally clears the active-backend slot without
checking who holds it, reports no suppression of a propagating exception, and
leaves the collected records untouched. -/
theorem C7_exit_unregisters_preserves (s : TestingState) (excInfo : Option String) :
    (s.exitScope excInfo).1.active = false
  ∧ (s.exitScope excInfo).1.mock = s.mock
  ∧ (s.exitScope excInfo).2 = false := by
  exact ⟨rfl, rfl, rfl⟩

/-- C8: each of the four emission operations is total — embedded as plain
functions into `MetricsMock`, not `Except` — and appends exactly one record
holding the given stat, value and tags unchanged, with no validation. -/
theorem C8_emission_totality (m : MetricsMock) (stat : String) (value : Value)
    (tags : Option (List String)) :
    (m.incr stat value tags).records = m.records ++ [⟨.INCR, stat, value, tags⟩]
  ∧ (m.gauge stat value tags).records = m.records ++ [⟨.GAUGE, stat, value, tags⟩]
  ∧ (m.timing stat value tags).records = m.records ++ [⟨.TIMING, stat, value, tags⟩]
  ∧ (m.histogram stat value tags).records = m.records ++ [⟨.HISTOGRAM, stat, value, tags⟩] := by
  exact ⟨rfl, rfl, rfl, rfl⟩

/-- C9: calling `incr` with no explicit value appends exactly one record with
kind `INCR`, the given stat, the default value 1, and the given tags. -/
theorem C9_incr_default_value (m : MetricsMock) (stat : String)
    (tags : Option (List String)) :
    (m.incrDefault stat tags).records = m.records ++ [⟨.INCR, stat, .int 1, tags⟩] := by
  exact rfl

/-- C10: `clear_records` resets the record sequence to empty and changes
nothing else: the active/inactive installed-backend state is untouched, so
clearing behaves the same whether a scope is active or not. -/
theorem C10_clear_records_frame (s : TestingState) :
    s.clear_records.mock.records = [] ∧ s.clear_records.active = s.active := by
  exact ⟨rfl, rfl⟩

/-- C4: every emission appends exactly one record at the end; a whole sequence
of emissions leaves `get_records()` holding all records in exact call order;
and `get_records` is a pure read — it returns `records` without modifying the
state, so repeated calls agree. -/
theorem C4_order_preservation (m : MetricsMock) (es : List Emission) :
    (es.foldl MetricsMock.emit m).get_records = m.get_records ++ es.map Emission.record
  ∧ (∀ e : Emission, (m.emit e).records = m.records ++ [e.record])
  ∧ m.get_records = m.records := by
  refine ⟨?_, ?_, rfl⟩
  · induction es generalizing m with
    | nil => simp [MetricsMock.get_records]
    | cons e es ih =>
      have hstep : (m.emit e).records = m.records ++ [e.record] := by
        cases e <;> rfl
      simp only [MetricsMock.get_records] at ih ⊢
      rw [List.foldl_cons, ih (m.emit e), hstep, List.append_assoc, List.singleton_append,
        List.map_cons]
  · intro e
    cases e <;> rfl

/-- C5: `has_record` is equivalent to non-emptiness of `filter_records` —
`bool(filter_records(...))` — on every outcome: it returns true iff the filter
returns a non-empty list, false iff the filter returns the empty list, and it
propagates exactly the exception the filter raises.  Both operations are pure
reads in the embedding: neither returns a modified state. -/
theorem C5_has_record_iff_nonempty_filter (m : MetricsMock) (c : Criteria) :
    (m.has_record c = .ok true ↔ ∃ l, m.filter_records c = .ok l ∧ l ≠ [])
  ∧ (m.has_record c = .ok false ↔ m.filter_records c = .ok [])
  ∧ (∀ e : PyError, m.has_record c = .error e ↔ m.filter_records c = .error e) := by
  cases h : m.filter_records c with
  | ok l =>
    cases l with
    | nil => simp [MetricsMock.has_record, h]
    | cons r rs => simp [MetricsMock.has_record, h]
  | error e => simp [MetricsMock.has_record, h]

/-- Characters with equal code points are equal. -/
theorem charToNat_inj {a b : Char} (h : a.toNat = b.toNat) : a = b := by
  apply Char.eq_of_val_eq
  apply UInt32.eq_of_toBitVec_eq
  simp only [Char.toNat, UInt32.toNat] at h
  exact BitVec.eq_of_toNat_eq h

/-- Code-point lexicographic comparison is total. -/
theorem strLeAux_total : ∀ as bs, strLeAux as bs = true ∨ strLeAux bs as = true
  | [], _ => Or.inl rfl
  | _ :: _, [] => Or.inr rfl
  | a :: as, b :: bs => by
    rcases Nat.lt_trichotomy a.toNat b.toNat with h | h | h
    · left
      simp [strLeAux, h]
    · have nab : ¬ a.toNat < b.toNat := by omega
      have nba : ¬ b.toNat < a.toNat := by omega
      rcases strLeAux_total as bs with ih | ih
      · left
        simp [strLeAux, nab, nba, ih]
      · right
        simp [strLeAux, nab, nba, ih]
    · right
      simp [strLeAux, h]

/-- Code-point lexicographic comparison is transitive. -/
theorem strLeAux_trans : ∀ as bs cs, strLeAux as bs = true → strLeAux bs cs = true →
    strLeAux as cs = true
  | [], _, _, _, _ => rfl
  | _ :: _, [], _, h1, _ => by simp [strLeAux] at h1
  | _ :: _, _ :: _, [], _, h2 => by simp [strLeAux] at h2
  | a :: as, b :: bs, c :: cs, h1, h2 => by
    rcases Nat.lt_trichotomy a.toNat b.toNat with hab | hab | hab
    · rcases Nat.lt_trichotomy b.toNat c.toNat with hbc | hbc | hbc
      · simp [strLeAux, show a.toNat < c.toNat by omega]
      · simp [strLeAux, show a.toNat < c.toNat by omega]
      · simp [strLeAux, show ¬ b.toNat < c.toNat by omega, hbc] at h2
    · rcases Nat.lt_trichotomy b.toNat c.toNat with hbc | hbc | hbc
      · simp [strLeAux, show a.toNat < c.toNat by omega]
      · simp only [strLeAux, show ¬ a.toNat < b.toNat by omega,
          show ¬ b.toNat < a.toNat by omega, if_false, if_neg] at h1
        simp only [strLeAux, show ¬ b.toNat < c.toNat by omega,
          show ¬ c.toNat < b.toNat by omega, if_false, if_neg] at h2
        simp only [strLeAux, show ¬ a.toNat < c.toNat by omega,
          show ¬ c.toNat < a.toNat by omega, if_false, if_neg]
        exact strLeAux_trans as bs cs h1 h2
      · simp [strLeAux, show ¬ b.toNat < c.toNat by omega, hbc] at h2
    · simp [strLeAux, show ¬ a.toNat < b.toNat by omega, hab] at h1

/-- Code-point lexicographic comparison is antisymmetric. -/
theorem strLeAux_antisymm : ∀ as bs, strLeAux as bs = true → strLeAux bs as = true → as = bs
  | [], [], _, _ => rfl
  | [], _ :: _, _, h2 => by simp [strLeAux] at h2
  | _ :: _, [], h1, _ => by simp [strLeAux] at h1
  | a :: as, b :: bs, h1, h2 => by
    rcases Nat.lt_trichotomy a.toNat b.toNat with h | h | h
    · simp [strLeAux, show ¬ b.toNat < a.toNat by omega, h] at h2
    · simp only [strLeAux, show ¬ a.toNat < b.toNat by omega,
        show ¬ b.toNat < a.toNat by omega, if_false, if_neg] at h1 h2
      rw [charToNat_inj h, strLeAux_antisymm as bs h1 h2]
    · simp [strLeAux, show ¬ a.toNat < b.toNat by omega, h] at h1

instance : IsTotal String pyStrLeProp :=
  ⟨fun a b => strLeAux_total a.data b.data⟩

instance : IsTrans String pyStrLeProp :=
  ⟨fun a b c h1 h2 => strLeAux_trans a.data b.data c.data h1 h2⟩

instance : IsAntisymm String pyStrLeProp :=
  ⟨fun a b h1 h2 => by
    have h := strLeAux_antisymm a.data b.data h1 h2
    cases a
    cases b
    exact congrArg String.mk h⟩

/-- Two string lists have equal Python sorts iff each is a rearrangement of the
other. -/
theorem pySorted_eq_iff_perm (ts rts : List String) :
    pySorted ts = pySorted rts ↔ ts.Perm rts := by
  constructor
  · intro h
    have h1 : ts.Perm (pySorted ts) := (List.perm_insertionSort _ ts).symm
    have h2 : (pySorted rts).Perm rts := List.perm_insertionSort _ rts
    rw [h] at h1
    exact h1.trans h2
  · intro p
    exact List.eq_of_perm_of_sorted
      ((List.perm_insertionSort _ ts).trans (p.trans (List.perm_insertionSort _ rts).symm))
      (List.sorted_insertionSort _ ts) (List.sorted_insertionSort _ rts)

/-- C2: tag matching is order-insensitive exact equality of the sorted
collections — a supplied tag list matches a record's (present) tag list iff
one is a permutation of the other; in particular tags `["b", "a"]` match a
record tagged `["a", "b"]`, while tags `["a"]` do not (no subset matching). -/
theorem C2_tag_match_order_insensitive (ts rts : List String) :
    (match_tags (some ts) (some rts) = .ok true ↔ ts.Perm rts)
  ∧ match_tags (some ["b", "a"]) (some ["a", "b"]) = .ok true
  ∧ match_tags (some ["a"]) (some ["a", "b"]) = .ok false := by
  refine ⟨?_, rfl, rfl⟩
  simp only [match_tags, Except.ok.injEq, beq_iff_eq]
  exact pySorted_eq_iff_perm ts rts

/-- Specification-side matcher, following the spec's words for
`filter_records`: logical AND across the four dimensions; a criterion left
unspecified matches every record on that dimension; `fun_name`, `stat` and
`value` by exact equality; `tags` by order-insensitive equality of the sorted
collections, with a record's absent tag collection read as empty. -/
def specMatches (c : Criteria) (r : Record) : Bool :=
  match_fun_name c.fun_name r.fun_name
  && match_stat c.stat r.stat
  && match_value c.value r.value
  && (match c.tags with
      | none => true
      | some ts => pySorted ts == pySorted (r.tags.getD []))

/-- When the comprehension condition evaluates without raising, it decides
exactly the spec-side matcher. -/
theorem matchRecord_ok_spec (c : Criteria) (r : Record) (b : Bool)
    (h : matchRecord c r = .ok b) : specMatches c r = b := by
  by_cases h1 : match_fun_name c.fun_name r.fun_name = true
  · by_cases h2 : match_stat c.stat r.stat = true
    · by_cases h3 : match_value c.value r.value = true
      · rw [matchRecord.eq_def, if_pos h1, if_pos h2, if_pos h3] at h
        rw [specMatches.eq_def, h1, h2, h3]
        simp only [Bool.true_and]
        cases hct : c.tags with
        | none =>
          rw [hct] at h
          simp only [match_tags] at h
          cases h
          rfl
        | some ts =>
          cases hrt : r.tags with
          | none =>
            rw [hct, hrt] at h
            exact absurd h (by simp [match_tags])
          | some rts =>
            rw [hct, hrt] at h
            simp only [match_tags, Except.ok.injEq] at h
            simp [hrt, h]
      · rw [matchRecord.eq_def, if_pos h1, if_pos h2, if_neg h3] at h
        cases h
        simp [specMatches, h3]
    · rw [matchRecord.eq_def, if_pos h1, if_neg h2] at h
      cases h
      simp [specMatches, h2]
  · rw [matchRecord.eq_def, if_neg h1] at h
    cases h
    simp [specMatches, h1]

/-- A successful run of the comprehension returns exactly the records the
spec-side matcher accepts, in order. -/
theorem filterList_ok_eq (c : Criteria) (rs : List Record) (l : List Record)
    (h : filterList c rs = .ok l) : l = rs.filter (specMatches c) := by
  induction rs generalizing l with
  | nil =>
    simp only [filterList] at h
    cases h
    rfl
  | cons r rs ih =>
    cases hb : matchRecord c r with
    | error e =>
      simp only [filterList, hb] at h
      exact Except.noConfusion h
    | ok b =>
      cases hrest : filterList c rs with
      | error e =>
        simp only [filterList, hb, hrest] at h
        exact Except.noConfusion h
      | ok rest =>
        simp only [filterList, hb, hrest, Except.ok.injEq] at h
        have hr := matchRecord_ok_spec c r b hb
        cases h
        cases b with
        | true => simp [List.filter_cons, hr, ih rest hrest]
        | false => simp [List.filter_cons, hr, ih rest hrest]

/-- With no criteria supplied, every record passes and the comprehension
returns the whole record list. -/
theorem filterList_no_criteria (rs : List Record) :
    filterList ⟨none, none, none, none⟩ rs = .ok rs := by
  induction rs with
  | nil => rfl
  | cons r rs ih =>
    simp only [filterList, ih]
    rfl

/-- C3: `filter_records` is conjunctive with wildcards — every successful call
returns exactly the records accepted by the AND of the supplied criteria, with
omitted criteria matching everything, as a subsequence of `get_records()` in
the original emission order; with no criteria supplied it returns all
records. -/
theorem C3_filter_conjunctive (m : MetricsMock) (c : Criteria) (l : List Record)
    (h : m.filter_records c = .ok l) :
    l = m.get_records.filter (specMatches c)
  ∧ l.Sublist m.get_records
  ∧ m.filter_records ⟨none, none, none, none⟩ = .ok m.get_records := by
  have h1 : l = m.get_records.filter (specMatches c) := filterList_ok_eq c m.get_records l h
  refine ⟨h1, ?_, filterList_no_criteria m.get_records⟩
  rw [h1]
  exact List.filter_sublist _

/-- A sample record with stat `"a"`. -/
def rA : Record := ⟨.INCR, "a", .int 1, some []⟩

/-- A sample record with stat `"b"`. -/
def rB : Record := ⟨.GAUGE, "b", .int 2, some ["t"]⟩

/-- A recorder holding the two sample records. -/
def mAB : MetricsMock := ⟨[rA, rB]⟩

theorem C3_filter_conjunctive_witness :
    [rA] = mAB.get_records.filter (specMatches ⟨none, some "a", none, none⟩)
  ∧ List.Sublist [rA] mAB.get_records
  ∧ mAB.filter_records ⟨none, none, none, none⟩ = .ok mAB.get_records :=
  C3_filter_conjunctive mAB ⟨none, some "a", none, none⟩ [rA] (by rfl)

/-- `match_tags` returns normally whenever the criterion is omitted or the
record's tags are present. -/
theorem match_tags_ok_of (tags record_tags : Option (List String))
    (h : tags = none ∨ record_tags ≠ none) :
    ∃ b, match_tags tags record_tags = .ok b := by
  cases tags with
  | none => exact ⟨true, rfl⟩
  | some ts =>
    cases record_tags with
    | none =>
      rcases h with h | h
      · exact absurd h (by simp)
      · exact absurd rfl h
    | some rts => exact ⟨_, rfl⟩

/-- The comprehension condition returns normally on a record whenever the tags
criterion is omitted or the record's tags are present. -/
theorem matchRecord_ok_of (c : Criteria) (r : Record)
    (h : c.tags = none ∨ r.tags ≠ none) : ∃ b, matchRecord c r = .ok b := by
  by_cases h1 : match_fun_name c.fun_name r.fun_name = true
  · by_cases h2 : match_stat c.stat r.stat = true
    · by_cases h3 : match_value c.value r.value = true
      · rw [matchRecord.eq_def, if_pos h1, if_pos h2, if_pos h3]
        exact match_tags_ok_of c.tags r.tags h
      · rw [matchRecord.eq_def, if_pos h1, if_pos h2, if_neg h3]
        exact ⟨false, rfl⟩
    · rw [matchRecord.eq_def, if_pos h1, if_neg h2]
      exact ⟨false, rfl⟩
  · rw [matchRecord.eq_def, if_neg h1]
    exact ⟨false, rfl⟩

/-- The comprehension returns normally on a record list whenever the tags
criterion is omitted or every record's tags are present. -/
theorem filterList_total_of_tags_present (c : Criteria) (rs : List Record)
    (h : ∀ r ∈ rs, c.tags = none ∨ r.tags ≠ none) :
    ∃ l, filterList c rs = .ok l := by
  induction rs with
  | nil => exact ⟨[], rfl⟩
  | cons r rs ih =>
    obtain ⟨l, hl⟩ := ih fun r' hr' => h r' (List.mem_cons_of_mem _ hr')
    obtain ⟨b, hb⟩ := matchRecord_ok_of c r (h r (List.mem_cons_self _ _))
    exact ⟨if b then r :: l else l, by simp only [filterList, hb, hl]⟩

/-- C1 as stated is false: with a tags criterion supplied, a record whose tags
field is Python `None` is not matched the way the same record with an empty
tag collection would be — the call raises `TypeError` instead of returning
normally, while the empty-tagged record makes it return normally. -/
theorem C1_counterexample :
    (MetricsMock.mk [⟨.INCR, "key", .int 1, none⟩]).filter_records
        ⟨none, none, none, some []⟩ = .error .typeError
  ∧ (MetricsMock.mk [⟨.INCR, "key", .int 1, some []⟩]).filter_records
        ⟨none, none, none, some []⟩ = .ok [⟨.INCR, "key", .int 1, some []⟩] :=
  ⟨rfl, rfl⟩

/-- C1 amended: `filter_records` returns normally whenever the tags criterion
is omitted or every record's tags are present; but a record whose tags field is
null is not treated like one with an empty tag collection — if a tags criterion
is supplied and such a record matches on the other three dimensions, evaluating
the matching condition on it raises `TypeError`. -/
theorem C1_amended_null_tags_raise (m : MetricsMock) (c : Criteria) :
    ((∀ r ∈ m.get_records, c.tags = none ∨ r.tags ≠ none) →
        ∃ l, m.filter_records c = .ok l)
  ∧ (∀ ts r, c.tags = some ts → r.tags = none →
      match_fun_name c.fun_name r.fun_name = true →
      match_stat c.stat r.stat = true →
      match_value c.value r.value = true →
      matchRecord c r = .error .typeError) := by
  constructor
  · intro h
    exact filterList_total_of_tags_present c m.get_records h
  · intro ts r hct hrt h1 h2 h3
    rw [matchRecord.eq_def, if_pos h1, if_pos h2, if_pos h3, hct, hrt]
    rfl

/-- A recorder holding one record with present (empty is fine, here `["a"]`)
tags. -/
def mTagged : MetricsMock := ⟨[⟨.INCR, "k", .int 1, some ["a"]⟩]⟩

/-- A criteria set supplying only a tags criterion. -/
def cTagsA : Criteria := ⟨none, none, none, some ["a"]⟩

/-- A record whose tags field is Python `None`. -/
def rNullTags : Record := ⟨.INCR, "k", .int 1, none⟩

theorem C1_amended_null_tags_raise_witness :
    (∃ l, mTagged.filter_records cTagsA = .ok l)
  ∧ matchRecord cTagsA rNullTags = .error .typeError :=
  ⟨(C1_amended_null_tags_raise mTagged cTagsA).1 (by decide),
   (C1_amended_null_tags_raise mTagged cTagsA).2 ["a"] rNullTags rfl rfl
     (by decide) (by decide) (by decide)⟩

/-- C3 as universally stated is false: a call that supplies a tags criterion
over a record sequence containing a record with null tags raises `TypeError`
instead of returning the matching subsequence (here the empty one). -/
theorem C3_counterexample :
    (MetricsMock.mk [⟨.INCR, "other", .int 2, none⟩]).filter_records
        ⟨none, none, none, some ["x"]⟩ = .error .typeError :=
  rfl
